import Mathlib

/-!
Shallow embedding of the policy-validator repository
(src/policy_validator/main.py, validators/base_validator.py,
utils/file_watcher.py) and proofs about its validation engine,
result reporter, batch driver and file-watch debouncing.

Conventions of the embedding:
* Python strings are Lean `String`s; substring tests work on `String.data`.
* `_validate_text_policy` reads the file and lowercases it inside a
  `try` block; the embedding receives that read as
  `Except String String` (`Except.error e` is a raised exception whose
  `str` is `e`, `Except.ok content` is the lowercased text).
* The mutable `file_info` dict is the `FileInfo` record, passed and
  returned explicitly.
* `re.search` of the two fixed structure patterns is embedded as an
  executable matcher over `List Char`; the `\s` and `\w` character
  classes are embedded at their ASCII meaning.
* Wall-clock times in the file watcher are values of any linearly
  ordered type with subtraction.
-/

/-- `listStarts n h` is true when `n` is an initial segment of `h`
(character-by-character comparison). -/
def listStarts : List Char → List Char → Bool
  | [], _ => true
  | _ :: _, [] => false
  | a :: as, b :: bs => a == b && listStarts as bs

/-- Python's substring containment `needle in hay` on the character
lists of the two strings. -/
def containsSub (needle : List Char) : List Char → Bool
  | [] => needle.isEmpty
  | c :: t => listStarts needle (c :: t) || containsSub needle t

/-- ASCII reading of the regex class `\s` used by the structure
patterns in `_validate_text_policy`. -/
def isWs (c : Char) : Bool :=
  c == ' ' || c == '\t' || c == '\n' || c == '\r' || c == '\x0b' || c == '\x0c'

/-- ASCII reading of the regex class `\w`. -/
def isWordChar (c : Char) : Bool :=
  c.isAlphanum || c == '_'

/-- Head of the list is a word character. -/
def firstIsWordChar : List Char → Bool
  | [] => false
  | c :: _ => isWordChar c

/-- Matcher for `#+\s+\w+` anchored at the head of the list
(main.py line 888, the part after the `(^|\n)` group). -/
def matchHashAt : List Char → Bool
  | '#' :: rest =>
    let afterHash := rest.dropWhile (fun c => c == '#')
    let afterSpace := afterHash.dropWhile isWs
    decide (afterSpace.length < afterHash.length) && firstIsWordChar afterSpace
  | _ => false

/-- Matcher for `\d+\.\s+\w+` anchored at the head of the list
(main.py line 889, the part after the `(^|\n)` group). -/
def matchNumAt : List Char → Bool
  | [] => false
  | c :: rest =>
    if c.isDigit then
      match rest.dropWhile Char.isDigit with
      | '.' :: afterDot =>
        let afterSpace := afterDot.dropWhile isWs
        decide (afterSpace.length < afterDot.length) && firstIsWordChar afterSpace
      | _ => false
    else false

/-- Scan for a match of `m` placed immediately after some newline
character of the list (the `\n` alternative of the `(^|\n)` group under
`re.search`). -/
def searchAfterNewline (m : List Char → Bool) : List Char → Bool
  | [] => false
  | c :: t => (c == '\n' && m t) || searchAfterNewline m t

/-- `re.search` of a pattern `(^|\n)P` without `re.MULTILINE`: `P` must
match at the start of the text or immediately after a line break. -/
def searchAnchored (m : List Char → Bool) (l : List Char) : Bool :=
  m l || searchAfterNewline m l

/-- One entry of `validation_standards` (main.py lines 452-509). -/
structure Standard where
  sections : List String
  min_length : Nat
  required_structure : Bool
deriving DecidableEq

/-- The "NIST SP 800-53" entry of `validation_standards`. -/
def nistStandard : Standard :=
  { sections := ["access control", "audit and accountability", "security assessment",
      "configuration management", "contingency planning",
      "identification and authentication", "incident response", "maintenance",
      "media protection", "physical protection", "risk assessment",
      "system and communications protection"],
    min_length := 1000,
    required_structure := true }

/-- The "ISO 27001" entry of `validation_standards`. -/
def isoStandard : Standard :=
  { sections := ["information security policies", "organization of information security",
      "human resource security", "asset management", "access control", "cryptography",
      "physical security", "operations security", "communications security",
      "incident management"],
    min_length := 800,
    required_structure := true }

/-- The "SOC 2" entry of `validation_standards`. -/
def soc2Standard : Standard :=
  { sections := ["security", "availability", "processing integrity", "confidentiality",
      "privacy"],
    min_length := 500,
    required_structure := false }

/-- The "Custom" entry of `validation_standards`. -/
def customStandard : Standard :=
  { sections := ["password", "data protection", "access control", "incident response",
      "compliance"],
    min_length := 50,
    required_structure := false }

/-- The `validation_standards` dict as an association list in insertion
order (main.py lines 452-509). -/
def VALIDATION_STANDARDS : List (String × Standard) :=
  [("NIST SP 800-53", nistStandard), ("ISO 27001", isoStandard),
   ("SOC 2", soc2Standard), ("Custom", customStandard)]

/-- First-match association lookup (Python dict indexing on an
insertion-ordered dict with distinct keys). -/
def findStandard : List (String × Standard) → String → Option Standard
  | [], _ => none
  | (k, v) :: rest, name => if k == name then some v else findStandard rest name

/-- `self.validation_standards[name]` as a partial lookup; `none` is the
`KeyError` case. -/
def lookupStandard (name : String) : Option Standard :=
  findStandard VALIDATION_STANDARDS name

/-- The issue string appended by the length check
(main.py lines 867-870). -/
def lengthIssue (current : String) (actual required : Nat) : String :=
  "Content length (" ++ toString actual ++
    " chars) is below minimum requirement (" ++ toString required ++
    " chars) for " ++ current

/-- The issue string appended by the section-presence check
(main.py lines 881-884). -/
def missingIssue (current : String) (missing : List String) : String :=
  "Missing required sections for " ++ current ++ ": " ++
    String.intercalate ", " missing

/-- The advisory issue string appended by the structure check
(main.py lines 890-893). -/
def structureIssue (current : String) : String :=
  current ++ " requires clear section headers or structured format"

/-- The issue string appended by the `except` handler of
`_validate_text_policy` (main.py line 897). -/
def errorIssue (e : String) : String :=
  "Error validating file: " ++ e

/-- `str` of a Python `KeyError` carrying the string key `k`. -/
def keyErrorRepr (k : String) : String :=
  "\x27" ++ k ++ "\x27"

/-- The per-file dict built by `process_files`
(main.py lines 660-668). -/
structure FileInfo where
  path : String
  type : String
  mime : String
  size : Nat
  extension : String
  valid : Bool
  issues : List String
deriving DecidableEq

/-- The `missing_sections` accumulation loop of `_validate_text_policy`
(main.py lines 874-877): walk the checkbox mapping in insertion order,
keeping every checked section that is not a substring of the content. -/
def missingSections (content : String) : List (String × Bool) → List String
  | [] => []
  | (sec, checked) :: rest =>
    if checked && !(containsSub sec.data content.data) then
      sec :: missingSections content rest
    else
      missingSections content rest

/-- The structure-check block of `_validate_text_policy`
(main.py lines 886-893). -/
def structureStep (current : String) (standard : Standard) (content : String)
    (fi : FileInfo) : FileInfo :=
  if standard.required_structure then
    if !(searchAnchored matchHashAt content.data) then
      if !(searchAnchored matchNumAt content.data) then
        { fi with issues := fi.issues ++ [structureIssue current] }
      else fi
    else fi
  else fi

/-- `_validate_text_policy` (main.py lines 858-897). `readLower` is the
outcome of `open(path).read().lower()`; the registry lookup
`self.validation_standards[self.current_standard]` sits inside the same
`try` block, so its `KeyError` is caught by the same handler. -/
def validateTextPolicy (readLower : Except String String) (current : String)
    (checkboxes : List (String × Bool)) (fi : FileInfo) : FileInfo :=
  match readLower with
  | Except.error e =>
    { fi with valid := false, issues := fi.issues ++ [errorIssue e] }
  | Except.ok content =>
    match lookupStandard current with
    | none =>
      { fi with valid := false,
                issues := fi.issues ++ [errorIssue (keyErrorRepr current)] }
    | some standard =>
      if content.length < standard.min_length then
        { fi with valid := false,
                  issues := fi.issues ++
                    [lengthIssue current content.length standard.min_length] }
      else
        structureStep current standard content
          (if (missingSections content checkboxes).isEmpty then fi
           else { fi with valid := false,
                          issues := fi.issues ++
                            [missingIssue current (missingSections content checkboxes)] })

/-- `_validate_pdf_policy` (main.py lines 937-951): size floor, then the
shared text validation. -/
def validatePdfPolicy (readLower : Except String String) (current : String)
    (checkboxes : List (String × Bool)) (fi : FileInfo) : FileInfo :=
  validateTextPolicy readLower current checkboxes
    (if fi.size < 1000 then
      { fi with issues := fi.issues ++ ["PDF file is suspiciously small"] }
     else fi)

/-- `_validate_word_policy` (main.py lines 996-1010): size floor, then
the shared text validation. -/
def validateWordPolicy (readLower : Except String String) (current : String)
    (checkboxes : List (String × Bool)) (fi : FileInfo) : FileInfo :=
  validateTextPolicy readLower current checkboxes
    (if fi.size < 1000 then
      { fi with issues := fi.issues ++ ["Word document is suspiciously small"] }
     else fi)

/-- The per-file dispatch of `validate_policies`
(main.py lines 745-754); `reads` gives each path's read outcome. -/
def dispatchValidate (reads : String → Except String String) (current : String)
    (checkboxes : List (String × Bool)) (fi : FileInfo) : FileInfo :=
  if fi.type == "txt" then
    validateTextPolicy (reads fi.path) current checkboxes fi
  else if fi.type == "pdf" then
    validatePdfPolicy (reads fi.path) current checkboxes fi
  else if fi.type == "doc" || fi.type == "docx" then
    validateWordPolicy (reads fi.path) current checkboxes fi
  else fi

/-- The batch loop of `validate_policies` (main.py lines 736-763): each
loaded file record is validated independently, in order. -/
def validatePolicies (reads : String → Except String String) (current : String)
    (checkboxes : List (String × Bool)) (files : List FileInfo) : List FileInfo :=
  files.map (dispatchValidate reads current checkboxes)

/-- The presentation buckets of the result report
(main.py lines 756-763). -/
inductive Bucket
  | success
  | warning
  | error
deriving DecidableEq

/-- The per-file classification of `validate_policies`
(main.py lines 756-763): valid with no issues, valid with issues,
or failed. -/
def classifyFile (fi : FileInfo) : Bucket :=
  if fi.valid then
    if fi.issues.isEmpty then Bucket.success else Bucket.warning
  else Bucket.error

/-- Modelled from the spec: section 4.4 says the classification "is
purely a function of `is_valid` and whether `issues` is empty"; this is
that function of the two booleans, to be compared with `classifyFile`. -/
def classifySpec (valid : Bool) (noIssues : Bool) : Bucket :=
  if valid then
    if noIssues then Bucket.success else Bucket.warning
  else Bucket.error

/-- The file-record construction of `process_files`
(main.py lines 652-696): detect the type from the MIME string, append
an extension-mismatch issue when needed, keep `valid` true; `none` is
the unsupported-type branch where no record is kept. -/
def processFileInfo (path mime : String) (size : Nat) (extension : String) :
    Option FileInfo :=
  if containsSub "pdf".data mime.data then
    some { path := path, type := "pdf", mime := mime, size := size,
           extension := extension, valid := true,
           issues := if extension == ".pdf" then []
             else ["Extension " ++ extension ++ " doesn\x27t match PDF content"] }
  else if containsSub "officedocument.wordprocessingml".data mime.data then
    some { path := path, type := "docx", mime := mime, size := size,
           extension := extension, valid := true,
           issues := if extension == ".docx" then []
             else ["Extension " ++ extension ++ " doesn\x27t match DOCX content"] }
  else if containsSub "msword".data mime.data then
    some { path := path, type := "doc", mime := mime, size := size,
           extension := extension, valid := true,
           issues := if extension == ".doc" then []
             else ["Extension " ++ extension ++ " doesn\x27t match DOC content"] }
  else if containsSub "text/plain".data mime.data then
    some { path := path, type := "txt", mime := mime, size := size,
           extension := extension, valid := true,
           issues := if extension == ".txt" || extension == ".text" then []
             else ["Extension " ++ extension ++ " doesn\x27t match text content"] }
  else none

/-- `update_section_checkboxes` (main.py lines 787-801): the checkbox
mapping is rebuilt from the current standard's section list, every
checkbox initially checked; an unknown standard leaves it empty. -/
def update_section_checkboxes (current : String) : List (String × Bool) :=
  match lookupStandard current with
  | some std => std.sections.map (fun s => (s, true))
  | none => []

/-- The pieces of `PolicyValidatorApp` state touched by
`on_standard_changed`; `statusLog` collects `log_status` calls as
(message, error-flag) pairs. -/
structure AppState where
  current_standard : String
  section_checkboxes : List (String × Bool)
  statusLog : List (String × Bool)
deriving DecidableEq

/-- `log_status` (main.py lines 703-726). -/
def log_status (st : AppState) (message : String) (isError : Bool) : AppState :=
  { st with statusLog := st.statusLog ++ [(message, isError)] }

/-- `on_standard_changed` (main.py lines 767-785): store the new name,
rebuild the checkboxes, log a plain (non-error) status message. -/
def on_standard_changed (st : AppState) (standard : String) : AppState :=
  log_status
    { st with current_standard := standard,
              section_checkboxes := update_section_checkboxes standard }
    ("Changed validation standard to: " ++ standard) false

/-- The issues appended to a file record by one run of
`_validate_text_policy`, as a function of the inputs alone. -/
def runIssues (readLower : Except String String) (current : String)
    (checkboxes : List (String × Bool)) : List String :=
  match readLower with
  | Except.error e => [errorIssue e]
  | Except.ok content =>
    match lookupStandard current with
    | none => [errorIssue (keyErrorRepr current)]
    | some standard =>
      if content.length < standard.min_length then
        [lengthIssue current content.length standard.min_length]
      else
        (if (missingSections content checkboxes).isEmpty then []
         else [missingIssue current (missingSections content checkboxes)]) ++
        (if standard.required_structure &&
            !(searchAnchored matchHashAt content.data) &&
            !(searchAnchored matchNumAt content.data) then
          [structureIssue current]
         else [])

/-- Whether one run of `_validate_text_policy` sets `valid` to false,
as a function of the inputs alone. -/
def runFails (readLower : Except String String) (current : String)
    (checkboxes : List (String × Bool)) : Bool :=
  match readLower with
  | Except.error _ => true
  | Except.ok content =>
    match lookupStandard current with
    | none => true
    | some standard =>
      if content.length < standard.min_length then true
      else !(missingSections content checkboxes).isEmpty

/-- The structure-check contribution to the issue list, as a function
of the inputs alone. -/
def structDelta (current : String) (standard : Standard) (content : String) :
    List String :=
  if standard.required_structure &&
      !(searchAnchored matchHashAt content.data) &&
      !(searchAnchored matchNumAt content.data) then
    [structureIssue current]
  else []

/-- A validation call may change only `valid` (and only downward) and
may only append to `issues`; every other field is untouched. -/
def MutatesOnlyAppend (fi fi' : FileInfo) : Prop :=
  fi'.path = fi.path ∧ fi'.type = fi.type ∧ fi'.mime = fi.mime ∧
  fi'.size = fi.size ∧ fi'.extension = fi.extension ∧
  (∃ d, fi'.issues = fi.issues ++ d) ∧ (∃ b, fi'.valid = (fi.valid && b))

/-- `self._last_modified.get(path)` on the watcher's per-path timestamp
table (file_watcher.py line 263). -/
def lookupTime {α : Type} : List (String × α) → String → Option α
  | [], _ => none
  | (p, t) :: rest, q => if p == q then some t else lookupTime rest q

/-- `self._last_modified[path] = t` on the timestamp table
(file_watcher.py line 264). -/
def updateTime {α : Type} : List (String × α) → String → α → List (String × α)
  | [], q, t => [(q, t)]
  | (p, t0) :: rest, q, t =>
    if p == q then (p, t) :: rest else (p, t0) :: updateTime rest q t

/-- The debounce core of `PolicyFileHandler.on_modified`
(file_watcher.py lines 256-271), for an event that already passed
`_should_process_file`: fire the callback when the path is new or when
more than `delay` elapsed since the last processed event for it, and
record the time only in that case. Returns the new table and whether
the callback ran. -/
def onModified {α : Type} [LinearOrder α] [Sub α] (delay : α)
    (st : List (String × α)) (path : String) (t : α) :
    List (String × α) × Bool :=
  match lookupTime st path with
  | none => (updateTime st path t, true)
  | some last =>
    if delay < t - last then (updateTime st path t, true) else (st, false)

/-- Feed a sequence of (path, time) modification events through the
handler, collecting the paths for which the callback fired. -/
def processEvents {α : Type} [LinearOrder α] [Sub α] (delay : α) :
    List (String × α) → List (String × α) → List (String × α) × List String
  | st, [] => (st, [])
  | st, (p, t) :: evs =>
    match onModified delay st p t with
    | (st1, fired) =>
      match processEvents delay st1 evs with
      | (st2, calls) => (st2, (if fired then [p] else []) ++ calls)

/-- A text file record as built by `process_files` for a matching
extension: no pre-existing issues. -/
def fiEx : FileInfo :=
  { path := "policy.txt", type := "txt", mime := "text/plain", size := 4,
    extension := ".txt", valid := true, issues := [] }

/-- A text file record carrying a pre-existing extension-mismatch
issue. -/
def fiMismatch : FileInfo :=
  { path := "policy.md", type := "txt", mime := "text/plain", size := 90,
    extension := ".md", valid := true,
    issues := ["Extension .md doesn\x27t match text content"] }

/-- A lowercased document text that satisfies the "Custom" standard:
at least 50 characters and containing all five section keywords. -/
def contentOK : String :=
  "password data protection access control incident response compliance policy statement"

/-- A lowercased document text of more than 50 characters that never
mentions the "password" keyword. -/
def contentNoPw : String :=
  "data protection access control incident response compliance statement of policy text"

/-- A read outcome map under which `policy.txt` raises while every
other path reads a well-formed long text. -/
def readsEx : String → Except String String := fun p =>
  if p == "policy.txt" then Except.error "boom" else Except.ok contentOK

/-- The application state right after startup with the default
"Custom" standard selected. -/
def appState0 : AppState :=
  { current_standard := "Custom",
    section_checkboxes := update_section_checkboxes "Custom",
    statusLog := [] }

/-! ## Helper lemmas about the embedded primitives -/

theorem listStarts_self_append (n b : List Char) : listStarts n (n ++ b) = true := by
  induction n with
  | nil => rfl
  | cons c t ih => simp [listStarts, ih]

theorem containsSub_of_starts (n h : List Char) (hs : listStarts n h = true) :
    containsSub n h = true := by
  cases h with
  | nil =>
    cases n with
    | nil => rfl
    | cons c t => simp [listStarts] at hs
  | cons c t => simp [containsSub, hs]

theorem containsSub_prepend (g n t : List Char) (h : containsSub n t = true) :
    containsSub n (g ++ t) = true := by
  induction g with
  | nil => simpa using h
  | cons c rest ih => simp [containsSub, ih]

theorem searchAfterNewline_iff (m : List Char → Bool) (l : List Char) :
    searchAfterNewline m l = true ↔
      ∃ pre suf : List Char, l = pre ++ '\n' :: suf ∧ m suf = true := by
  induction l with
  | nil =>
    constructor
    · intro h
      simp [searchAfterNewline] at h
    · rintro ⟨pre, suf, h, -⟩
      cases pre <;> simp at h
  | cons c t ih =>
    constructor
    · intro h
      simp only [searchAfterNewline, Bool.or_eq_true, Bool.and_eq_true, beq_iff_eq] at h
      rcases h with ⟨hc, hm⟩ | h
      · exact ⟨[], t, by simp [hc], hm⟩
      · obtain ⟨pre, suf, ht, hm⟩ := ih.mp h
        exact ⟨c :: pre, suf, by simp [ht], hm⟩
    · rintro ⟨pre, suf, hl, hm⟩
      cases pre with
      | nil =>
        simp only [List.nil_append, List.cons.injEq] at hl
        obtain ⟨hc, ht⟩ := hl
        simp [searchAfterNewline, hc, ht, hm]
      | cons d pre' =>
        simp only [List.cons_append, List.cons.injEq] at hl
        obtain ⟨-, ht⟩ := hl
        have : searchAfterNewline m t = true := ih.mpr ⟨pre', suf, ht, hm⟩
        simp [searchAfterNewline, this]

theorem missingSections_map (content : String) (sel : String → Bool) (l : List String) :
    missingSections content (l.map (fun s => (s, sel s))) =
      l.filter (fun s => sel s && !(containsSub s.data content.data)) := by
  induction l with
  | nil => rfl
  | cons s rest ih =>
    by_cases h : (sel s && !(containsSub s.data content.data)) = true
    · simp [missingSections, List.filter_cons, h, ih]
    · simp [missingSections, List.filter_cons, h, ih]

theorem structureStep_eq (current : String) (std : Standard) (content : String)
    (fi : FileInfo) :
    structureStep current std content fi =
      { fi with issues := fi.issues ++ structDelta current std content } := by
  by_cases h1 : std.required_structure = true
  · by_cases h2 : searchAnchored matchHashAt content.data = true
    · simp [structureStep, structDelta, h1, h2]
    · by_cases h3 : searchAnchored matchNumAt content.data = true
      · simp [structureStep, structDelta, h1, h2, h3]
      · simp [structureStep, structDelta, h1, h2, h3]
  · simp [structureStep, structDelta, h1]

theorem validateTextPolicy_decomp (r : Except String String) (current : String)
    (cbs : List (String × Bool)) (fi : FileInfo) :
    validateTextPolicy r current cbs fi =
      { fi with valid := fi.valid && !(runFails r current cbs),
                issues := fi.issues ++ runIssues r current cbs } := by
  cases r with
  | error e => simp [validateTextPolicy, runFails, runIssues]
  | ok content =>
    cases hlk : lookupStandard current with
    | none => simp [validateTextPolicy, runFails, runIssues, hlk]
    | some std =>
      by_cases hlen : content.length < std.min_length
      · simp [validateTextPolicy, runFails, runIssues, hlk, hlen]
      · by_cases hmiss : (missingSections content cbs).isEmpty = true
        · simp [validateTextPolicy, runFails, runIssues, hlk, hlen, hmiss,
            structureStep_eq, structDelta]
        · simp [validateTextPolicy, runFails, runIssues, hlk, hlen, hmiss,
            structureStep_eq, structDelta, List.append_assoc]

theorem processEvents_append {α : Type} [LinearOrder α] [Sub α] (delay : α)
    (a b : List (String × α)) : ∀ st : List (String × α),
    processEvents delay st (a ++ b) =
      ((processEvents delay (processEvents delay st a).1 b).1,
       (processEvents delay st a).2 ++ (processEvents delay (processEvents delay st a).1 b).2) := by
  induction a with
  | nil => intro st; simp [processEvents]
  | cons e rest ih =>
    intro st
    obtain ⟨p, t⟩ := e
    simp [processEvents, ih, List.append_assoc]

theorem processEvents_skip_burst {α : Type} [LinearOrder α] [Sub α]
    (delay t0 : α) (path : String) (ts : List α)
    (hwin : ∀ t ∈ ts, t - t0 ≤ delay) :
    processEvents delay [(path, t0)] (ts.map (fun t => (path, t))) = ([(path, t0)], []) := by
  induction ts with
  | nil => rfl
  | cons t rest ih =>
    have h1 : ¬ delay < t - t0 := not_lt.mpr (hwin t (by simp))
    have hskip : onModified delay [(path, t0)] path t = ([(path, t0)], false) := by
      simp [onModified, lookupTime, h1]
    simp [processEvents, hskip, ih (fun x hx => hwin x (by simp [hx]))]

theorem mutatesOnlyAppend_trans {f1 f2 f3 : FileInfo}
    (h12 : MutatesOnlyAppend f1 f2) (h23 : MutatesOnlyAppend f2 f3) :
    MutatesOnlyAppend f1 f3 := by
  obtain ⟨p1, t1, m1, s1, e1, ⟨d1, i1⟩, ⟨b1, v1⟩⟩ := h12
  obtain ⟨p2, t2, m2, s2, e2, ⟨d2, i2⟩, ⟨b2, v2⟩⟩ := h23
  exact ⟨p2.trans p1, t2.trans t1, m2.trans m1, s2.trans s1, e2.trans e1,
    ⟨d1 ++ d2, by rw [i2, i1, List.append_assoc]⟩,
    ⟨b1 && b2, by rw [v2, v1, Bool.and_assoc]⟩⟩

theorem mutatesOnlyAppend_text (r : Except String String) (current : String)
    (cbs : List (String × Bool)) (fi : FileInfo) :
    MutatesOnlyAppend fi (validateTextPolicy r current cbs fi) := by
  rw [validateTextPolicy_decomp]
  exact ⟨rfl, rfl, rfl, rfl, rfl, ⟨runIssues r current cbs, rfl⟩,
    ⟨!(runFails r current cbs), rfl⟩⟩

theorem mutatesOnlyAppend_sizeStep (fi : FileInfo) (msg : String) (cond : Prop)
    [Decidable cond] :
    MutatesOnlyAppend fi
      (if cond then { fi with issues := fi.issues ++ [msg] } else fi) := by
  by_cases h : cond
  · simp only [if_pos h]
    exact ⟨rfl, rfl, rfl, rfl, rfl, ⟨[msg], rfl⟩, ⟨true, by simp⟩⟩
  · simp only [if_neg h]
    exact ⟨rfl, rfl, rfl, rfl, rfl, ⟨[], by simp⟩, ⟨true, by simp⟩⟩

/-! ## Claim theorems -/

/-- C1: when the lowercased text is strictly shorter than the active
standard's `min_length`, `_validate_text_policy` appends exactly one
failure issue — whose message reports both the actual and the required
length — marks the record invalid, and returns at once: no
section-presence or structure check contributes anything to that run. -/
theorem lengthCheck_shortCircuit (content current : String) (std : Standard)
    (cbs : List (String × Bool)) (fi : FileInfo)
    (hstd : lookupStandard current = some std)
    (hlen : content.length < std.min_length) :
    validateTextPolicy (Except.ok content) current cbs fi =
      { fi with valid := false,
                issues := fi.issues ++
                  [lengthIssue current content.length std.min_length] } ∧
    containsSub (toString content.length).data
      (lengthIssue current content.length std.min_length).data = true ∧
    containsSub (toString std.min_length).data
      (lengthIssue current content.length std.min_length).data = true := by
  refine ⟨by simp [validateTextPolicy, hstd, hlen], ?_, ?_⟩
  · simp only [lengthIssue, String.data_append, List.append_assoc]
    apply containsSub_prepend
    exact containsSub_of_starts _ _ (listStarts_self_append _ _)
  · simp only [lengthIssue, String.data_append, List.append_assoc]
    apply containsSub_prepend
    apply containsSub_prepend
    apply containsSub_prepend
    exact containsSub_of_starts _ _ (listStarts_self_append _ _)

/-- Witness for C1 at the "Custom" standard and a 4-character text. -/
theorem lengthCheck_shortCircuit_witness :
    lookupStandard "Custom" = some customStandard ∧
    ("tiny" : String).length < customStandard.min_length ∧
    validateTextPolicy (Except.ok "tiny") "Custom" [] fiEx =
      { fiEx with valid := false,
                  issues := fiEx.issues ++
                    [lengthIssue "Custom" ("tiny" : String).length customStandard.min_length] } :=
  ⟨by decide, by decide,
    (lengthCheck_shortCircuit "tiny" "Custom" customStandard [] fiEx
      (by decide) (by decide)).1⟩

/-- C2: starting from a record with `valid = true`, the flag ends up
false exactly when the length check fails or some checked section is
missing; a raised exception also forces it false; and the records built
by `process_files` always start with `valid = true`, even when an
extension-mismatch issue was attached. -/
theorem valid_flag_iff (content e current : String) (std : Standard)
    (cbs : List (String × Bool)) (fi : FileInfo)
    (path mime : String) (size : Nat) (extension : String)
    (hstd : lookupStandard current = some std)
    (hv : fi.valid = true) :
    ((validateTextPolicy (Except.ok content) current cbs fi).valid = false ↔
      content.length < std.min_length ∨
        (missingSections content cbs).isEmpty = false) ∧
    (validateTextPolicy (Except.error e) current cbs fi).valid = false ∧
    Option.all (fun fj => fj.valid) (processFileInfo path mime size extension) = true := by
  refine ⟨?_, ?_, ?_⟩
  · rw [validateTextPolicy_decomp]
    by_cases hlen : content.length < std.min_length
    · simp [runFails, hstd, hlen, hv]
    · simp [runFails, hstd, hlen, hv]
  · rw [validateTextPolicy_decomp]
    simp [runFails]
  · unfold processFileInfo
    split_ifs <;> simp [Option.all]

/-- Witness for C2: a well-formed long text against "Custom", on a
record carrying a pre-existing extension-mismatch issue. -/
theorem valid_flag_iff_witness :
    lookupStandard "Custom" = some customStandard ∧
    fiMismatch.valid = true ∧
    (((validateTextPolicy (Except.ok contentOK) "Custom"
        (customStandard.sections.map (fun s => (s, true))) fiMismatch).valid = false ↔
      contentOK.length < customStandard.min_length ∨
        (missingSections contentOK
          (customStandard.sections.map (fun s => (s, true)))).isEmpty = false) ∧
    (validateTextPolicy (Except.error "boom") "Custom"
      (customStandard.sections.map (fun s => (s, true))) fiMismatch).valid = false ∧
    Option.all (fun fj => fj.valid)
      (processFileInfo "notes.md" "text/plain" 90 ".md") = true) :=
  ⟨by decide, by decide,
    valid_flag_iff contentOK "boom" "Custom" customStandard
      (customStandard.sections.map (fun s => (s, true))) fiMismatch
      "notes.md" "text/plain" 90 ".md" (by decide) (by decide)⟩

/-- C3: with the checkbox mapping built from the standard's section
list (arbitrary checked flags), the missing-section collection tests
every checked keyword by substring with no early exit and equals the
filter of the standard's section list in its original order; when it is
non-empty, exactly one failure issue is appended — its message joins
the missing names with ", " — and the structure check still runs after
it. -/
theorem missing_sections_single_report (content current : String) (std : Standard)
    (sel : String → Bool) (fi : FileInfo)
    (hstd : lookupStandard current = some std)
    (hlen : ¬ content.length < std.min_length)
    (hmiss : (missingSections content
      (std.sections.map (fun s => (s, sel s)))).isEmpty = false) :
    missingSections content (std.sections.map (fun s => (s, sel s))) =
      std.sections.filter (fun s => sel s && !(containsSub s.data content.data)) ∧
    missingIssue current (missingSections content (std.sections.map (fun s => (s, sel s)))) =
      "Missing required sections for " ++ current ++ ": " ++
        String.intercalate ", "
          (missingSections content (std.sections.map (fun s => (s, sel s)))) ∧
    validateTextPolicy (Except.ok content) current
        (std.sections.map (fun s => (s, sel s))) fi =
      { fi with valid := false,
                issues := fi.issues ++
                  [missingIssue current
                    (missingSections content (std.sections.map (fun s => (s, sel s))))] ++
                  structDelta current std content } := by
  refine ⟨missingSections_map content sel std.sections, rfl, ?_⟩
  simp [validateTextPolicy, hstd, hlen, hmiss, structureStep_eq, List.append_assoc]

/-- Witness for C3: "Custom" with only the "password" checkbox checked
against a long text that never mentions passwords. -/
theorem missing_sections_single_report_witness :
    (missingSections contentNoPw
      (customStandard.sections.map (fun s => (s, s == "password")))).isEmpty = false ∧
    (missingSections contentNoPw
        (customStandard.sections.map (fun s => (s, s == "password"))) =
      customStandard.sections.filter
        (fun s => (s == "password") && !(containsSub s.data contentNoPw.data)) ∧
    missingIssue "Custom" (missingSections contentNoPw
        (customStandard.sections.map (fun s => (s, s == "password")))) =
      "Missing required sections for " ++ "Custom" ++ ": " ++
        String.intercalate ", "
          (missingSections contentNoPw
            (customStandard.sections.map (fun s => (s, s == "password")))) ∧
    validateTextPolicy (Except.ok contentNoPw) "Custom"
        (customStandard.sections.map (fun s => (s, s == "password"))) fiEx =
      { fiEx with valid := false,
                  issues := fiEx.issues ++
                    [missingIssue "Custom"
                      (missingSections contentNoPw
                        (customStandard.sections.map (fun s => (s, s == "password"))))] ++
                    structDelta "Custom" customStandard contentNoPw }) :=
  ⟨by decide,
    missing_sections_single_report contentNoPw "Custom" customStandard
      (fun s => s == "password") fiEx (by decide) (by decide) (by decide)⟩

/-- C4 counterexample: on a too-short text the first run appends the
length failure once, but a second run on the same (already mutated)
file record appends the very same issue again, so the record's issue
sequence after the second run is not the one after the first. -/
theorem second_run_duplicates_issues :
    (validateTextPolicy (Except.ok "tiny") "Custom" [] fiEx).issues =
      [lengthIssue "Custom" 4 50] ∧
    (validateTextPolicy (Except.ok "tiny") "Custom" []
        (validateTextPolicy (Except.ok "tiny") "Custom" [] fiEx)).issues =
      [lengthIssue "Custom" 4 50, lengthIssue "Custom" 4 50] ∧
    ((validateTextPolicy (Except.ok "tiny") "Custom" []
        (validateTextPolicy (Except.ok "tiny") "Custom" [] fiEx)).issues ==
      (validateTextPolicy (Except.ok "tiny") "Custom" [] fiEx).issues) = false := by
  decide

/-- C4 (amended): validation is deterministic — the issues a run
appends are a function of the text, standard and selection only, so a
second run with identical inputs appends exactly the same issue
sequence and reaches the same `valid` flag; but because issues
accumulate in the mutable record, the second run duplicates them
instead of leaving the record unchanged. -/
theorem rerun_same_delta_and_flag (r : Except String String) (current : String)
    (cbs : List (String × Bool)) (fi : FileInfo) :
    (validateTextPolicy r current cbs fi).issues =
      fi.issues ++ runIssues r current cbs ∧
    (validateTextPolicy r current cbs (validateTextPolicy r current cbs fi)).issues =
      (validateTextPolicy r current cbs fi).issues ++ runIssues r current cbs ∧
    (validateTextPolicy r current cbs (validateTextPolicy r current cbs fi)).valid =
      (validateTextPolicy r current cbs fi).valid := by
  simp [validateTextPolicy_decomp, Bool.and_assoc]

/-- C5: the report classification of `validate_policies` sends every
completed record to exactly one of the three buckets — success when
valid with no issues, warning when valid with issues, error when
invalid — and factors through the pair (valid flag, issues emptiness)
alone. -/
theorem classify_buckets (fi : FileInfo) :
    (classifyFile fi = Bucket.success ↔ fi.valid = true ∧ fi.issues = []) ∧
    (classifyFile fi = Bucket.warning ↔ fi.valid = true ∧ fi.issues.isEmpty = false) ∧
    (classifyFile fi = Bucket.error ↔ fi.valid = false) ∧
    classifyFile fi = classifySpec fi.valid fi.issues.isEmpty := by
  cases hval : fi.valid <;> cases hiss : fi.issues <;>
    simp [classifyFile, classifySpec, hval, hiss]

/-- C6: past the length check, the structure advisory is appended
exactly when the standard requires structure and neither fixed pattern
matches (in particular never when `required_structure` is false), and
the `(^|\n)`-anchored search succeeds precisely on a match at the start
of the text or immediately after a line break. -/
theorem structure_advisory (content current : String) (std : Standard)
    (cbs : List (String × Bool)) (fi : FileInfo)
    (hstd : lookupStandard current = some std)
    (hlen : ¬ content.length < std.min_length) :
    ((validateTextPolicy (Except.ok content) current cbs fi).issues =
      fi.issues ++
        (if (missingSections content cbs).isEmpty then []
         else [missingIssue current (missingSections content cbs)]) ++
        (if std.required_structure &&
            !(searchAnchored matchHashAt content.data) &&
            !(searchAnchored matchNumAt content.data) then
          [structureIssue current]
         else [])) ∧
    (∀ (m : List Char → Bool) (l : List Char),
      searchAnchored m l = true ↔
        (m l = true ∨ ∃ pre suf : List Char, l = pre ++ '\n' :: suf ∧ m suf = true)) := by
  constructor
  · rw [validateTextPolicy_decomp]
    simp [runIssues, hstd, hlen, List.append_assoc]
  · intro m l
    simp [searchAnchored, searchAfterNewline_iff]

/-- Witness for C6 at the "Custom" standard (no structure required):
the advisory contribution is empty. -/
theorem structure_advisory_witness :
    lookupStandard "Custom" = some customStandard ∧
    ¬ contentOK.length < customStandard.min_length ∧
    (validateTextPolicy (Except.ok contentOK) "Custom"
        (customStandard.sections.map (fun s => (s, true))) fiEx).issues =
      fiEx.issues ++
        (if (missingSections contentOK
              (customStandard.sections.map (fun s => (s, true)))).isEmpty then []
         else [missingIssue "Custom"
            (missingSections contentOK
              (customStandard.sections.map (fun s => (s, true))))]) ++
        (if customStandard.required_structure &&
            !(searchAnchored matchHashAt contentOK.data) &&
            !(searchAnchored matchNumAt contentOK.data) then
          [structureIssue "Custom"]
         else []) :=
  ⟨by decide, by decide,
    (structure_advisory contentOK "Custom" customStandard
      (customStandard.sections.map (fun s => (s, true))) fiEx
      (by decide) (by decide)).1⟩

/-- C7: an exception while validating one text file is absorbed inside
that file's own validation call — the record is marked invalid with an
issue describing the error — and the batch map processes every file of
the list independently, so the files after the failing one are handled
exactly as they would be on their own. -/
theorem batch_isolation (reads : String → Except String String) (current e : String)
    (cbs : List (String × Bool)) (fi : FileInfo) (files1 files2 : List FileInfo)
    (herr : reads fi.path = Except.error e) (htxt : fi.type = "txt") :
    dispatchValidate reads current cbs fi =
      { fi with valid := false, issues := fi.issues ++ [errorIssue e] } ∧
    validatePolicies reads current cbs (files1 ++ fi :: files2) =
      validatePolicies reads current cbs files1 ++
        dispatchValidate reads current cbs fi ::
          validatePolicies reads current cbs files2 := by
  constructor
  · simp [dispatchValidate, htxt, herr, validateTextPolicy]
  · simp [validatePolicies]

/-- Witness for C7: a two-file batch whose first file's read raises. -/
theorem batch_isolation_witness :
    readsEx fiEx.path = Except.error "boom" ∧
    fiEx.type = "txt" ∧
    (dispatchValidate readsEx "Custom" [] fiEx =
      { fiEx with valid := false, issues := fiEx.issues ++ [errorIssue "boom"] } ∧
    validatePolicies readsEx "Custom" [] ([] ++ fiEx :: [fiMismatch]) =
      validatePolicies readsEx "Custom" [] [] ++
        dispatchValidate readsEx "Custom" [] fiEx ::
          validatePolicies readsEx "Custom" [] [fiMismatch]) :=
  ⟨by rfl, by decide,
    batch_isolation readsEx "Custom" "boom" [] fiEx [] [fiMismatch]
      (by rfl) (by decide)⟩

/-- C8 counterexample: selecting a name absent from
`validation_standards` is not reported as an error — the handler logs
only a plain "Changed validation standard to" message and silently
empties the checkbox list — and at validation time the failed registry
lookup is caught per file, turning the unknown name into a
per-document validation failure. -/
theorem unknown_standard_counterexample :
    lookupStandard "Imaginary Standard" = none ∧
    (on_standard_changed appState0 "Imaginary Standard").section_checkboxes = [] ∧
    (on_standard_changed appState0 "Imaginary Standard").statusLog =
      [("Changed validation standard to: Imaginary Standard", false)] ∧
    (validateTextPolicy (Except.ok contentOK) "Imaginary Standard" [] fiEx).valid = false ∧
    (validateTextPolicy (Except.ok contentOK) "Imaginary Standard" [] fiEx).issues =
      [errorIssue (keyErrorRepr "Imaginary Standard")] := by
  decide

/-- C8 (amended): for every standard name outside the registry,
`on_standard_changed` accepts it silently — the checkbox list becomes
empty and the only log entry is a non-error status message — and a
later validation run catches the registry `KeyError` at the per-file
boundary, marking the document invalid with an error issue naming the
unknown standard, instead of reporting a configuration error to the
caller. -/
theorem unknown_standard_behavior (name content : String) (st : AppState)
    (cbs : List (String × Bool)) (fi : FileInfo)
    (hu : lookupStandard name = none) :
    (on_standard_changed st name).section_checkboxes = [] ∧
    (on_standard_changed st name).statusLog =
      st.statusLog ++ [("Changed validation standard to: " ++ name, false)] ∧
    validateTextPolicy (Except.ok content) name cbs fi =
      { fi with valid := false,
                issues := fi.issues ++ [errorIssue (keyErrorRepr name)] } := by
  refine ⟨?_, ?_, ?_⟩ <;>
    simp [on_standard_changed, log_status, update_section_checkboxes,
      validateTextPolicy, hu]

/-- Witness for the amended C8 at a concrete unknown name. -/
theorem unknown_standard_behavior_witness :
    lookupStandard "No Such Standard" = none ∧
    ((on_standard_changed appState0 "No Such Standard").section_checkboxes = [] ∧
    (on_standard_changed appState0 "No Such Standard").statusLog =
      appState0.statusLog ++
        [("Changed validation standard to: " ++ "No Such Standard", false)] ∧
    validateTextPolicy (Except.ok contentOK) "No Such Standard" [] fiMismatch =
      { fiMismatch with
          valid := false,
          issues := fiMismatch.issues ++
            [errorIssue (keyErrorRepr "No Such Standard")] }) :=
  ⟨by decide,
    unknown_standard_behavior "No Such Standard" contentOK appState0 [] fiMismatch
      (by decide)⟩

/-- C9: notifications for the same path that stay within the debounce
window of the first processed one fire the callback exactly once, and
a notification strictly beyond the window fires it again. -/
theorem debounce_coalesce {α : Type} [LinearOrder α] [Sub α]
    (delay t0 tLate : α) (path : String) (ts : List α)
    (hwin : ∀ t ∈ ts, t - t0 ≤ delay) (hlate : delay < tLate - t0) :
    (processEvents delay [] ((path, t0) :: ts.map (fun t => (path, t)))).2 = [path] ∧
    (processEvents delay []
        (((path, t0) :: ts.map (fun t => (path, t))) ++ [(path, tLate)])).2 =
      [path, path] := by
  have h0 : onModified delay ([] : List (String × α)) path t0 = ([(path, t0)], true) := by
    simp [onModified, lookupTime, updateTime]
  have hburst := processEvents_skip_burst delay t0 path ts hwin
  have hfire : onModified delay [(path, t0)] path tLate = ([(path, tLate)], true) := by
    simp [onModified, lookupTime, updateTime, hlate]
  constructor
  · simp [processEvents, h0, hburst]
  · simp only [List.cons_append]
    simp [processEvents, h0, processEvents_append, hburst, hfire]

/-- Witness for C9 over integer-valued times: a burst at times 0 and 1
with window 2 fires once; a further event at time 3 fires again. -/
theorem debounce_coalesce_witness :
    (∀ t ∈ [(1 : Int)], t - 0 ≤ 2) ∧ ((2 : Int) < 3 - 0) ∧
    ((processEvents (2 : Int) []
        (("policy.txt", 0) :: [(1 : Int)].map (fun t => ("policy.txt", t)))).2 =
      ["policy.txt"] ∧
    (processEvents (2 : Int) []
        ((("policy.txt", 0) :: [(1 : Int)].map (fun t => ("policy.txt", t))) ++
          [("policy.txt", 3)])).2 = ["policy.txt", "policy.txt"]) :=
  ⟨by decide, by decide,
    debounce_coalesce 2 0 3 "policy.txt" [1] (by decide) (by decide)⟩

/-- C10: each of the three validation calls only appends to the
record's issue list and can only lower the `valid` flag; `path`,
`type`, `mime`, `size` and `extension` are untouched (and the standard
registry is a constant the calls cannot modify). -/
theorem validators_frame (r : Except String String) (current : String)
    (cbs : List (String × Bool)) (fi : FileInfo) :
    MutatesOnlyAppend fi (validateTextPolicy r current cbs fi) ∧
    MutatesOnlyAppend fi (validatePdfPolicy r current cbs fi) ∧
    MutatesOnlyAppend fi (validateWordPolicy r current cbs fi) := by
  refine ⟨mutatesOnlyAppend_text r current cbs fi, ?_, ?_⟩
  · exact mutatesOnlyAppend_trans
      (mutatesOnlyAppend_sizeStep fi "PDF file is suspiciously small" (fi.size < 1000))
      (mutatesOnlyAppend_text r current cbs _)
  · exact mutatesOnlyAppend_trans
      (mutatesOnlyAppend_sizeStep fi "Word document is suspiciously small" (fi.size < 1000))
      (mutatesOnlyAppend_text r current cbs _)
